import Mathlib

/-!
A shallow embedding of the choreography core of `src/index.tsx`:
the `Particle` class (current/target transforms, layout generators and
per-tick easing), the global `STATE` (mode string, focus target, hand
signal), `App.updateMode`, `App.addPhotoToScene`, the photo-upload
completion handler, and the `VisionManager` gesture pipeline
(`predictWebcam`, `processGestures`).

JavaScript numbers are modelled as real numbers.  Every call to
`Math.random()` is modelled as an explicit oracle argument: a `PRand`
bundle carries the independent draws that one particle-mutating call
can consume (`setScatterTarget` uses `u1 u2 u3`, `setTreeTarget` uses
`j1 j2 rx ry`, the constructor additionally uses `v1 v2 v3`), and
per-particle loops receive a stream `rs : ℕ → PRand` of bundles, one
per collection index.  Object identity of the focus target
(`p === STATE.focusTarget`) is modelled by the particle's index in the
`particles` array, which is faithful because the array only ever grows
by appending.
-/

/-- A 3-component vector, standing for both `THREE.Vector3` and
`THREE.Euler` (the source uses Euler angles componentwise). -/
structure V3 where
  x : ℝ
  y : ℝ
  z : ℝ

/-- Squared Euclidean distance between two vectors. -/
noncomputable def V3.distSq (a b : V3) : ℝ :=
  (a.x - b.x) ^ 2 + (a.y - b.y) ^ 2 + (a.z - b.z) ^ 2

/-- Euclidean distance between two vectors. -/
noncomputable def V3.dist (a b : V3) : ℝ :=
  Real.sqrt (V3.distSq a b)

/-- Euclidean norm of a vector. -/
noncomputable def V3.norm (a : V3) : ℝ :=
  Real.sqrt (a.x ^ 2 + a.y ^ 2 + a.z ^ 2)

/-- `THREE.Vector3.lerp(target, alpha)`: componentwise
`current + (target - current) * alpha`. -/
noncomputable def V3.lerp (a b : V3) (alpha : ℝ) : V3 :=
  ⟨a.x + (b.x - a.x) * alpha, a.y + (b.y - a.y) * alpha, a.z + (b.z - a.z) * alpha⟩

/-- One bundle of `Math.random()` draws available to a single
particle-mutating call.  `u1 u2 u3` are the three draws of
`setScatterTarget` (radius, theta, phi), `j1 j2` the two jitter draws
and `rx ry` the two rotation draws of `setTreeTarget`, and `v1 v2 v3`
the three velocity draws of the `Particle` constructor. -/
structure PRand where
  u1 : ℝ
  u2 : ℝ
  u3 : ℝ
  j1 : ℝ
  j2 : ℝ
  rx : ℝ
  ry : ℝ
  v1 : ℝ
  v2 : ℝ
  v3 : ℝ

/-- Every draw of `Math.random()` lies in `[0, 1)`. -/
def PRand.Valid (r : PRand) : Prop :=
  (0 ≤ r.u1 ∧ r.u1 < 1) ∧ (0 ≤ r.u2 ∧ r.u2 < 1) ∧ (0 ≤ r.u3 ∧ r.u3 < 1) ∧
  (0 ≤ r.j1 ∧ r.j1 < 1) ∧ (0 ≤ r.j2 ∧ r.j2 < 1) ∧
  (0 ≤ r.rx ∧ r.rx < 1) ∧ (0 ≤ r.ry ∧ r.ry < 1) ∧
  (0 ≤ r.v1 ∧ r.v1 < 1) ∧ (0 ≤ r.v2 ∧ r.v2 < 1) ∧ (0 ≤ r.v3 ∧ r.v3 < 1)

/-- The all-zero draw bundle (a legal value of `Math.random()`). -/
def PRand.zero : PRand :=
  ⟨0, 0, 0, 0, 0, 0, 0, 0, 0, 0⟩

/-- The `Particle` class: its mesh's displayed transform (`pos`, `rot`,
`scale` model `mesh.position`, `mesh.rotation`, `mesh.scale`), its
target transform, its role string `type`, the `baseScale` captured at
construction, and the free-spin `velocity`. -/
structure Particle where
  type : String
  baseScale : V3
  pos : V3
  rot : V3
  scale : V3
  targetPos : V3
  targetRot : V3
  targetScale : V3
  velocity : V3

instance : Inhabited Particle :=
  ⟨{ type := "DECORATION", baseScale := ⟨1, 1, 1⟩, pos := ⟨0, 0, 0⟩,
     rot := ⟨0, 0, 0⟩, scale := ⟨1, 1, 1⟩, targetPos := ⟨0, 0, 0⟩,
     targetRot := ⟨0, 0, 0⟩, targetScale := ⟨0, 0, 0⟩, velocity := ⟨0, 0, 0⟩ }⟩

/-- `Particle.setScatterTarget`: spherical placement with
`r = 8 + random*12`, `theta = random*π*2`, `phi = acos(random*2 - 1)`;
sets `targetPos` and copies `baseScale` into `targetScale`. -/
noncomputable def Particle.setScatterTarget (r : PRand) (p : Particle) : Particle :=
  let rr := 8 + r.u1 * 12
  let theta := r.u2 * Real.pi * 2
  let phi := Real.arccos (r.u3 * 2 - 1)
  { p with
    targetPos := ⟨rr * Real.sin phi * Real.cos theta,
                  rr * Real.sin phi * Real.sin theta,
                  rr * Real.cos phi⟩,
    targetScale := p.baseScale }

/-- `Particle.setTreeTarget(i, total)`: helix point at parameter
`t = i/total` with angle `t*50*π`, radius `15*(1-t)` and height
`t*40 - 20`, plus jitter `(random - 0.5)` added to the x and z
components; random pitch/yaw in `[0, π)`, roll `0`; scale target is the
base scale. -/
noncomputable def Particle.setTreeTarget (i total : ℕ) (r : PRand) (p : Particle) : Particle :=
  let t : ℝ := (i : ℝ) / (total : ℝ)
  let angle := t * 50 * Real.pi
  let radius := 15 * (1 - t)
  let height := t * 40 - 20
  { p with
    targetPos := ⟨Real.cos angle * radius + (r.j1 - 0.5),
                  height,
                  Real.sin angle * radius + (r.j2 - 0.5)⟩,
    targetRot := ⟨r.rx * Real.pi, r.ry * Real.pi, 0⟩,
    targetScale := p.baseScale }

/-- `Particle.setFocusTarget(isFocusItem)`: the focus subject is sent to
`(0, 2, 40)` with neutral rotation and scale `(3, 3, 3)`; every other
particle gets a fresh scatter target whose position is then multiplied
by `2.0`. -/
noncomputable def Particle.setFocusTarget (isFocusItem : Bool) (r : PRand) (p : Particle) : Particle :=
  if isFocusItem then
    { p with targetPos := ⟨0, 2, 40⟩, targetRot := ⟨0, 0, 0⟩, targetScale := ⟨3, 3, 3⟩ }
  else
    let q := Particle.setScatterTarget r p
    { q with targetPos := ⟨2 * q.targetPos.x, 2 * q.targetPos.y, 2 * q.targetPos.z⟩ }

/-- The `Particle` constructor: captures `baseScale` from the mesh,
draws a velocity with components `(random - 0.5) * 0.1`, calls
`setScatterTarget` for the initial target, and copies that target into
the mesh position (the mesh itself starts with identity transform and
scale `meshScale`). -/
noncomputable def Particle.create (meshScale : V3) (type : String) (r : PRand) : Particle :=
  let p0 : Particle :=
    { type := type, baseScale := meshScale, pos := ⟨0, 0, 0⟩, rot := ⟨0, 0, 0⟩,
      scale := meshScale, targetPos := ⟨0, 0, 0⟩, targetRot := ⟨0, 0, 0⟩,
      targetScale := ⟨0, 0, 0⟩,
      velocity := ⟨(r.v1 - 0.5) * 0.1, (r.v2 - 0.5) * 0.1, (r.v3 - 0.5) * 0.1⟩ }
  let p1 := Particle.setScatterTarget r p0
  { p1 with pos := p1.targetPos }

/-- `Particle.update`: lerp position and scale toward their targets with
factor `0.05`; rotation free-spins by `velocity * 2` on x/y while the
global mode is `SCATTER`, otherwise eases toward `targetRot` with
factor `0.05` on all three axes. -/
noncomputable def Particle.update (mode : String) (p : Particle) : Particle :=
  { p with
    pos := p.pos.lerp p.targetPos 0.05,
    rot :=
      if mode = "SCATTER" then
        ⟨p.rot.x + p.velocity.x * 2, p.rot.y + p.velocity.y * 2, p.rot.z⟩
      else
        ⟨p.rot.x + (p.targetRot.x - p.rot.x) * 0.05,
         p.rot.y + (p.targetRot.y - p.rot.y) * 0.05,
         p.rot.z + (p.targetRot.z - p.rot.z) * 0.05⟩,
    scale := p.scale.lerp p.targetScale 0.05 }

lemma Particle.update_targetPos (mode : String) (p : Particle) :
    (Particle.update mode p).targetPos = p.targetPos := rfl

lemma Particle.update_iterate (mode : String) (p : Particle) (K : ℕ) :
    ((Particle.update mode)^[K] p).targetPos = p.targetPos ∧
    ((Particle.update mode)^[K] p).pos.x - p.targetPos.x
        = (0.95 : ℝ) ^ K * (p.pos.x - p.targetPos.x) ∧
    ((Particle.update mode)^[K] p).pos.y - p.targetPos.y
        = (0.95 : ℝ) ^ K * (p.pos.y - p.targetPos.y) ∧
    ((Particle.update mode)^[K] p).pos.z - p.targetPos.z
        = (0.95 : ℝ) ^ K * (p.pos.z - p.targetPos.z) := by
  induction K with
  | zero => simp
  | succ n ih =>
    obtain ⟨ht, hx, hy, hz⟩ := ih
    rw [Function.iterate_succ_apply']
    refine ⟨ht, ?_, ?_, ?_⟩
    · have h : (Particle.update mode ((Particle.update mode)^[n] p)).pos.x
          = ((Particle.update mode)^[n] p).pos.x
            + (((Particle.update mode)^[n] p).targetPos.x
                - ((Particle.update mode)^[n] p).pos.x) * 0.05 := rfl
      rw [h, ht, pow_succ]
      nlinarith [hx]
    · have h : (Particle.update mode ((Particle.update mode)^[n] p)).pos.y
          = ((Particle.update mode)^[n] p).pos.y
            + (((Particle.update mode)^[n] p).targetPos.y
                - ((Particle.update mode)^[n] p).pos.y) * 0.05 := rfl
      rw [h, ht, pow_succ]
      nlinarith [hy]
    · have h : (Particle.update mode ((Particle.update mode)^[n] p)).pos.z
          = ((Particle.update mode)^[n] p).pos.z
            + (((Particle.update mode)^[n] p).targetPos.z
                - ((Particle.update mode)^[n] p).pos.z) * 0.05 := rfl
      rw [h, ht, pow_succ]
      nlinarith [hz]

/-- C10: the per-tick step mutates only the displayed transform; the
target transform (and the fixed creation-time data) is untouched in
every global mode. -/
theorem update_preserves_targets (mode : String) (p : Particle) :
    (Particle.update mode p).targetPos = p.targetPos ∧
    (Particle.update mode p).targetRot = p.targetRot ∧
    (Particle.update mode p).targetScale = p.targetScale ∧
    (Particle.update mode p).type = p.type ∧
    (Particle.update mode p).baseScale = p.baseScale ∧
    (Particle.update mode p).velocity = p.velocity :=
  ⟨rfl, rfl, rfl, rfl, rfl, rfl⟩

/-- C5: with a fixed target, iterated ticks converge exponentially and
never overshoot: after `K` ticks the distance to the target is exactly
`0.95 ^ K` times the initial distance (in particular at most that), and
hence never exceeds the initial distance at any tick. -/
theorem tick_convergence (mode : String) (p : Particle) (K : ℕ) :
    V3.dist ((Particle.update mode)^[K] p).pos p.targetPos
        = (0.95 : ℝ) ^ K * V3.dist p.pos p.targetPos ∧
    V3.dist ((Particle.update mode)^[K] p).pos p.targetPos
        ≤ V3.dist p.pos p.targetPos := by
  obtain ⟨-, hx, hy, hz⟩ := Particle.update_iterate mode p K
  have hpow : (0 : ℝ) ≤ (0.95 : ℝ) ^ K := by positivity
  have hsum : V3.distSq ((Particle.update mode)^[K] p).pos p.targetPos
      = ((0.95 : ℝ) ^ K) ^ 2 * V3.distSq p.pos p.targetPos := by
    unfold V3.distSq
    rw [hx, hy, hz]
    ring
  have hdist : V3.dist ((Particle.update mode)^[K] p).pos p.targetPos
      = (0.95 : ℝ) ^ K * V3.dist p.pos p.targetPos := by
    unfold V3.dist
    rw [hsum, Real.sqrt_mul (sq_nonneg _), Real.sqrt_sq hpow]
  refine ⟨hdist, ?_⟩
  rw [hdist]
  have h1 : (0.95 : ℝ) ^ K ≤ 1 := by
    apply pow_le_one₀ <;> norm_num
  have h0 : 0 ≤ V3.dist p.pos p.targetPos := Real.sqrt_nonneg _
  nlinarith

/-- The latest hand signal (`STATE.handData`). -/
structure HandData where
  detected : Bool
  centerX : ℝ
  centerY : ℝ

/-- The process-wide state: `App.particles`, `STATE.mode`,
`STATE.focusTarget` (as an index into `particles`), `STATE.handData`,
`VisionManager.isEnabled` and `VisionManager.lastVideoTime`. -/
structure AppState where
  particles : List Particle
  mode : String
  focusTarget : Option ℕ
  handData : HandData
  isEnabled : Bool
  lastVideoTime : ℝ

/-- `Array.prototype.forEach((p, i) => ...)` returning the mutated
collection: map with the collection index, starting at `k`. -/
def mapWithIdx (f : ℕ → Particle → Particle) : ℕ → List Particle → List Particle
  | _, [] => []
  | k, p :: ps => f k p :: mapWithIdx f (k + 1) ps

lemma length_mapWithIdx (f : ℕ → Particle → Particle) :
    ∀ (k : ℕ) (ps : List Particle), (mapWithIdx f k ps).length = ps.length := by
  intro k ps
  induction ps generalizing k with
  | nil => rfl
  | cons p ps ih => simp [mapWithIdx, ih]

lemma getElem?_mapWithIdx (f : ℕ → Particle → Particle) :
    ∀ (k : ℕ) (ps : List Particle) (i : ℕ),
      (mapWithIdx f k ps)[i]? = (ps[i]?).map (f (k + i)) := by
  intro k ps
  induction ps generalizing k with
  | nil => intro i; simp [mapWithIdx]
  | cons p ps ih =>
    intro i
    cases i with
    | zero => simp [mapWithIdx]
    | succ j =>
      have h : k + 1 + j = k + (j + 1) := by omega
      simp only [mapWithIdx, List.getElem?_cons_succ, ih (k + 1) j, h]

/-- Array indexing `particles[i]` (out-of-range reads never happen on
the paths we model; they default). -/
def particleAt (ps : List Particle) (i : ℕ) : Particle :=
  (ps[i]?).getD default

lemma particleAt_mapWithIdx (f : ℕ → Particle → Particle) (ps : List Particle)
    (i : ℕ) (h : i < ps.length) :
    particleAt (mapWithIdx f 0 ps) i = f i (particleAt ps i) := by
  unfold particleAt
  rw [getElem?_mapWithIdx, List.getElem?_eq_getElem h]
  simp

/-- Membership test `p.type === 'PHOTO'` at index `i`. -/
def isPhotoAt (ps : List Particle) (i : ℕ) : Bool :=
  match ps[i]? with
  | some p => p.type == "PHOTO"
  | none => false

/-- The indices of the PHOTO particles, in collection order; this is
the faithful rendering of `particles.filter(p => p.type === 'PHOTO')`
under the index model of object identity. -/
def photoIndices (ps : List Particle) : List ℕ :=
  (List.range ps.length).filter fun i => isPhotoAt ps i

lemma mem_photoIndices {ps : List Particle} {i : ℕ} :
    i ∈ photoIndices ps ↔ i < ps.length ∧ (particleAt ps i).type = "PHOTO" := by
  unfold photoIndices
  rw [List.mem_filter, List.mem_range]
  constructor
  · rintro ⟨h1, h2⟩
    refine ⟨h1, ?_⟩
    unfold isPhotoAt at h2
    unfold particleAt
    rw [List.getElem?_eq_getElem h1] at h2 ⊢
    simpa using h2
  · rintro ⟨h1, h2⟩
    refine ⟨h1, ?_⟩
    unfold isPhotoAt
    unfold particleAt at h2
    rw [List.getElem?_eq_getElem h1] at h2 ⊢
    simpa using h2

/-- `CONFIG.particleCount`. -/
def particleCount : ℕ := 1500

/-- `App.updateMode(mode)`.  A no-op when the requested mode equals the
stored one; otherwise the stored mode is overwritten first, then the
branch for the recognized modes applies the corresponding layout.  The
FOCUS branch with zero photos executes `this.updateMode('TREE')`; at
that point the stored mode is `'FOCUS'`, so that nested call cannot
return early and is inlined here as its TREE branch.  `rs i` carries
the `Math.random()` draws consumed for particle `i` by the single
layout application this call performs, and `pick` the draw used for
`photos[Math.floor(Math.random() * photos.length)]`. -/
noncomputable def updateMode (m : String) (pick : ℝ) (rs : ℕ → PRand) (s : AppState) :
    AppState :=
  if s.mode = m then s
  else if m = "TREE" then
    { s with mode := m,
             particles := mapWithIdx
               (fun i p => Particle.setTreeTarget i s.particles.length (rs i) p) 0 s.particles }
  else if m = "SCATTER" then
    { s with mode := m,
             particles := mapWithIdx (fun i p => Particle.setScatterTarget (rs i) p) 0 s.particles }
  else if m = "FOCUS" then
    let photos := photoIndices s.particles
    if photos.length > 0 then
      let fi := photos.getD (Nat.floor (pick * (photos.length : ℝ))) 0
      { s with mode := m, focusTarget := some fi,
               particles := mapWithIdx
                 (fun i p => Particle.setFocusTarget (i == fi) (rs i) p) 0 s.particles }
    else
      { s with mode := "TREE",
               particles := mapWithIdx
                 (fun i p => Particle.setTreeTarget i s.particles.length (rs i) p) 0 s.particles }
  else { s with mode := m }

/-- `App.addPhotoToScene(texture)`: builds the frame mesh (identity
transform, scale `(1,1,1)`), constructs a `'PHOTO'` particle from it
(which scatter-places it), then calls
`setTreeTarget(Math.floor(Math.random() * 1500), 1500)` on the new
particle and appends it to the collection. -/
noncomputable def addPhotoToScene (rNew : PRand) (pick : ℝ) (rTree : PRand) (s : AppState) :
    AppState :=
  let p0 := Particle.create ⟨1, 1, 1⟩ "PHOTO" rNew
  let p := Particle.setTreeTarget (Nat.floor (pick * (particleCount : ℝ))) particleCount rTree p0
  { s with particles := s.particles ++ [p] }

/-- The photo-upload completion handler (the `TextureLoader.load`
callback): `addPhotoToScene`, then `updateMode('FOCUS')`, then override
the focus target with the last PHOTO and re-apply `setFocusTarget` to
every particle. -/
noncomputable def onPhotoLoaded (rNew : PRand) (pickIdx : ℝ) (rTree : PRand)
    (pickFocus : ℝ) (rs1 rs2 : ℕ → PRand) (s : AppState) : AppState :=
  let s1 := addPhotoToScene rNew pickIdx rTree s
  let s2 := updateMode "FOCUS" pickFocus rs1 s1
  let photos := photoIndices s2.particles
  let fi := photos.getD (photos.length - 1) 0
  { s2 with focusTarget := some fi,
            particles := mapWithIdx
              (fun i p => Particle.setFocusTarget (i == fi) (rs2 i) p) 0 s2.particles }

/-- A normalized 2D landmark point. -/
structure P2 where
  x : ℝ
  y : ℝ

/-- `Math.hypot(a, b)`. -/
noncomputable def hypot (a b : ℝ) : ℝ :=
  Real.sqrt (a ^ 2 + b ^ 2)

/-- `VisionManager.processGestures(result)`: `result` is `some lm` when
`result.landmarks` is nonempty (then `lm` is the first hand's 21-point
list, modelled as a total function on indices), `none` otherwise.  With
a hand: record the hand signal from landmark 9 (x mirrored), then test
pinch (thumb tip 4 vs index tip 8, threshold `0.05`, FOCUS, early
return), else mean fingertip-to-wrist distance with thresholds `0.25`
(TREE) and `0.4` (SCATTER) and a dead zone in between. -/
noncomputable def processGestures (result : Option (ℕ → P2)) (pick : ℝ)
    (rs : ℕ → PRand) (s : AppState) : AppState :=
  match result with
  | some lm =>
    let s1 := { s with
      handData := { detected := true, centerX := 1 - (lm 9).x, centerY := (lm 9).y } }
    let pinchDist := hypot ((lm 4).x - (lm 8).x) ((lm 4).y - (lm 8).y)
    if pinchDist < 0.05 then updateMode "FOCUS" pick rs s1
    else
      let avgDist := (hypot ((lm 8).x - (lm 0).x) ((lm 8).y - (lm 0).y)
        + hypot ((lm 12).x - (lm 0).x) ((lm 12).y - (lm 0).y)
        + hypot ((lm 16).x - (lm 0).x) ((lm 16).y - (lm 0).y)
        + hypot ((lm 20).x - (lm 0).x) ((lm 20).y - (lm 0).y)) / 4
      if avgDist < 0.25 then updateMode "TREE" pick rs s1
      else if avgDist > 0.4 then updateMode "SCATTER" pick rs s1
      else s1
  | none => { s with handData := { s.handData with detected := false } }

/-- One iteration of `VisionManager.predictWebcam` (minus the
re-scheduling): when disabled, force `handData.detected = false` and
return; otherwise, on a new video timestamp and with a loaded
landmarker, run detection (its result is the `result` argument) and
process gestures. -/
noncomputable def predictWebcam (currentTime : ℝ) (hasLandmarker : Bool)
    (result : Option (ℕ → P2)) (pick : ℝ) (rs : ℕ → PRand) (s : AppState) : AppState :=
  if s.isEnabled = false then
    { s with handData := { s.handData with detected := false } }
  else if currentTime ≠ s.lastVideoTime then
    let s1 := { s with lastVideoTime := currentTime }
    if hasLandmarker then processGestures result pick rs s1 else s1
  else s

/-- The startup global state: `STATE` as initialized at the top of the
file, before `initContent` populates the particle collection. -/
def initialState : AppState :=
  { particles := [], mode := "TREE", focusTarget := none,
    handData := { detected := false, centerX := 0.5, centerY := 0.5 },
    isEnabled := false, lastVideoTime := -1 }

lemma normSq_setScatterTarget (r : PRand) (p : Particle) :
    (Particle.setScatterTarget r p).targetPos.x ^ 2
      + (Particle.setScatterTarget r p).targetPos.y ^ 2
      + (Particle.setScatterTarget r p).targetPos.z ^ 2
      = (8 + r.u1 * 12) ^ 2 := by
  have hphi := Real.sin_sq_add_cos_sq (Real.arccos (r.u3 * 2 - 1))
  have htheta := Real.sin_sq_add_cos_sq (r.u2 * Real.pi * 2)
  simp only [Particle.setScatterTarget]
  linear_combination ((8 + r.u1 * 12) ^ 2 * Real.sin (Real.arccos (r.u3 * 2 - 1)) ^ 2) * htheta
    + (8 + r.u1 * 12) ^ 2 * hphi

lemma norm_setScatterTarget (r : PRand) (hr : 0 ≤ r.u1) (p : Particle) :
    V3.norm (Particle.setScatterTarget r p).targetPos = 8 + r.u1 * 12 := by
  unfold V3.norm
  rw [normSq_setScatterTarget, Real.sqrt_sq (by linarith)]

lemma norm_setFocusTarget_false (r : PRand) (hr : 0 ≤ r.u1) (p : Particle) :
    V3.norm (Particle.setFocusTarget false r p).targetPos = 2 * (8 + r.u1 * 12) := by
  have key := normSq_setScatterTarget r p
  simp only [Particle.setFocusTarget, Bool.false_eq_true, if_false]
  unfold V3.norm
  have h4 : (2 * (Particle.setScatterTarget r p).targetPos.x) ^ 2
      + (2 * (Particle.setScatterTarget r p).targetPos.y) ^ 2
      + (2 * (Particle.setScatterTarget r p).targetPos.z) ^ 2
      = (2 * (8 + r.u1 * 12)) ^ 2 := by nlinarith [key]
  rw [show ((⟨2 * (Particle.setScatterTarget r p).targetPos.x,
        2 * (Particle.setScatterTarget r p).targetPos.y,
        2 * (Particle.setScatterTarget r p).targetPos.z⟩ : V3)).x
      = 2 * (Particle.setScatterTarget r p).targetPos.x from rfl]
  rw [show ((⟨2 * (Particle.setScatterTarget r p).targetPos.x,
        2 * (Particle.setScatterTarget r p).targetPos.y,
        2 * (Particle.setScatterTarget r p).targetPos.z⟩ : V3)).y
      = 2 * (Particle.setScatterTarget r p).targetPos.y from rfl]
  rw [show ((⟨2 * (Particle.setScatterTarget r p).targetPos.x,
        2 * (Particle.setScatterTarget r p).targetPos.y,
        2 * (Particle.setScatterTarget r p).targetPos.z⟩ : V3)).z
      = 2 * (Particle.setScatterTarget r p).targetPos.z from rfl]
  rw [h4, Real.sqrt_sq (by linarith)]

lemma type_setScatterTarget (r : PRand) (p : Particle) :
    (Particle.setScatterTarget r p).type = p.type := rfl

lemma type_setTreeTarget (i total : ℕ) (r : PRand) (p : Particle) :
    (Particle.setTreeTarget i total r p).type = p.type := rfl

lemma type_setFocusTarget (b : Bool) (r : PRand) (p : Particle) :
    (Particle.setFocusTarget b r p).type = p.type := by
  cases b <;> rfl

lemma photoIndices_mapWithIdx (f : ℕ → Particle → Particle)
    (hf : ∀ i p, (f i p).type = p.type) (ps : List Particle) :
    photoIndices (mapWithIdx f 0 ps) = photoIndices ps := by
  unfold photoIndices
  rw [length_mapWithIdx]
  apply List.filter_congr
  intro i hi
  rw [List.mem_range] at hi
  unfold isPhotoAt
  rw [getElem?_mapWithIdx, Nat.zero_add]
  cases h : ps[i]? with
  | none => simp
  | some p => simp [hf]

lemma updateMode_self (m : String) (pick : ℝ) (rs : ℕ → PRand) (s : AppState)
    (h : s.mode = m) : updateMode m pick rs s = s := by
  unfold updateMode
  rw [if_pos h]

lemma updateMode_focus_noPhotos (pick : ℝ) (rs : ℕ → PRand) (s : AppState)
    (h1 : s.mode ≠ "FOCUS") (h2 : photoIndices s.particles = []) :
    updateMode "FOCUS" pick rs s =
      { s with mode := "TREE",
               particles := mapWithIdx
                 (fun i p => Particle.setTreeTarget i s.particles.length (rs i) p)
                 0 s.particles } := by
  unfold updateMode
  rw [if_neg h1, if_neg (by decide : ¬ ("FOCUS" = "TREE")),
    if_neg (by decide : ¬ ("FOCUS" = "SCATTER")), if_pos rfl]
  simp [h2]

lemma updateMode_mode_of (m : String) (pick : ℝ) (rs : ℕ → PRand) (s : AppState)
    (h : m = "TREE" ∨ m = "SCATTER" ∨ (m = "FOCUS" ∧ photoIndices s.particles ≠ [])) :
    (updateMode m pick rs s).mode = m := by
  by_cases hs : s.mode = m
  · rw [updateMode_self m pick rs s hs]
    exact hs
  · unfold updateMode
    rw [if_neg hs]
    rcases h with h | h | ⟨h, hph⟩
    · subst h
      rw [if_pos rfl]
    · subst h
      rw [if_neg (by decide : ¬ ("SCATTER" = "TREE")), if_pos rfl]
    · subst h
      rw [if_neg (by decide : ¬ ("FOCUS" = "TREE")),
        if_neg (by decide : ¬ ("FOCUS" = "SCATTER")), if_pos rfl]
      have hl : 0 < (photoIndices s.particles).length := List.length_pos.mpr hph
      simp only [gt_iff_lt, hl, if_true]

/-- C2: requesting FOCUS in a photo-free state (in every reachable
photo-free state the stored mode is not FOCUS and no focus subject is
set) terminates with mode TREE, no focus subject, and the tree layout
applied to every particle: the refusal is a fallback, not an error. -/
theorem focus_fallback_no_photos (pick : ℝ) (rs : ℕ → PRand) (s : AppState)
    (hp : photoIndices s.particles = []) (hm : s.mode ≠ "FOCUS")
    (hf : s.focusTarget = none) :
    (updateMode "FOCUS" pick rs s).mode = "TREE" ∧
    (updateMode "FOCUS" pick rs s).focusTarget = none ∧
    (updateMode "FOCUS" pick rs s).particles = mapWithIdx
      (fun i p => Particle.setTreeTarget i s.particles.length (rs i) p) 0 s.particles := by
  rw [updateMode_focus_noPhotos pick rs s hm hp]
  exact ⟨rfl, hf, rfl⟩

theorem focus_fallback_no_photos_witness :
    (updateMode "FOCUS" 0 (fun _ => PRand.zero) initialState).mode = "TREE" ∧
    (updateMode "FOCUS" 0 (fun _ => PRand.zero) initialState).focusTarget = none ∧
    (updateMode "FOCUS" 0 (fun _ => PRand.zero) initialState).particles = [] :=
  focus_fallback_no_photos 0 (fun _ => PRand.zero) initialState rfl
    (by decide) rfl

lemma updateMode_focus_photos (pick : ℝ) (rs : ℕ → PRand) (s : AppState)
    (h1 : s.mode ≠ "FOCUS") (h2 : photoIndices s.particles ≠ []) :
    updateMode "FOCUS" pick rs s =
      { s with mode := "FOCUS",
               focusTarget := some ((photoIndices s.particles).getD
                 (Nat.floor (pick * ((photoIndices s.particles).length : ℝ))) 0),
               particles := mapWithIdx
                 (fun i p => Particle.setFocusTarget
                   (i == (photoIndices s.particles).getD
                     (Nat.floor (pick * ((photoIndices s.particles).length : ℝ))) 0)
                   (rs i) p)
                 0 s.particles } := by
  unfold updateMode
  rw [if_neg h1, if_neg (by decide : ¬ ("FOCUS" = "TREE")),
    if_neg (by decide : ¬ ("FOCUS" = "SCATTER")), if_pos rfl]
  have hl : 0 < (photoIndices s.particles).length := List.length_pos.mpr h2
  simp only [gt_iff_lt, hl, if_true]

/-- C3 (amended): requesting an unrecognized mode applies no layout and
leaves every particle's target transform and the focus subject
unchanged, but the stored mode is overwritten with the unrecognized
value (the guard only short-circuits when it already equals the stored
mode). -/
theorem unknown_mode_boundary (m : String)
    (hm : m ≠ "TREE" ∧ m ≠ "SCATTER" ∧ m ≠ "FOCUS")
    (pick : ℝ) (rs : ℕ → PRand) (s : AppState) :
    (updateMode m pick rs s).particles = s.particles ∧
    (updateMode m pick rs s).focusTarget = s.focusTarget ∧
    (updateMode m pick rs s).mode = m := by
  obtain ⟨h1, h2, h3⟩ := hm
  by_cases hs : s.mode = m
  · rw [updateMode_self m pick rs s hs]
    exact ⟨rfl, rfl, hs⟩
  · unfold updateMode
    rw [if_neg hs, if_neg h1, if_neg h2, if_neg h3]
    exact ⟨rfl, rfl, rfl⟩

/-- C3 counterexample: at the startup state (mode `'TREE'`), requesting
the unrecognized mode `'BOGUS'` does change the stored mode, contrary
to the claim that the stored mode is left unchanged. -/
theorem unknown_mode_boundary_cex :
    (updateMode "BOGUS" 0 (fun _ => PRand.zero) initialState).mode
      ≠ initialState.mode := by
  unfold updateMode
  rw [if_neg (by decide : ¬ (initialState.mode = "BOGUS")),
    if_neg (by decide : ¬ ("BOGUS" = "TREE")),
    if_neg (by decide : ¬ ("BOGUS" = "SCATTER")),
    if_neg (by decide : ¬ ("BOGUS" = "FOCUS"))]
  decide

theorem unknown_mode_boundary_witness :
    (updateMode "BOGUS" 0 (fun _ => PRand.zero) initialState).particles
        = initialState.particles ∧
    (updateMode "BOGUS" 0 (fun _ => PRand.zero) initialState).focusTarget
        = initialState.focusTarget ∧
    (updateMode "BOGUS" 0 (fun _ => PRand.zero) initialState).mode = "BOGUS" :=
  unknown_mode_boundary "BOGUS" (by decide) 0 (fun _ => PRand.zero) initialState

/-- C4 (amended): a repeated mode request is a no-op — the second call
returns the state unchanged, so no target changes and no focus subject
is reselected — whenever the first request actually establishes the
requested mode: always for TREE and SCATTER, and for FOCUS whenever at
least one PHOTO particle exists.  (With zero photos a FOCUS request
falls back to TREE, so a second FOCUS request re-runs the fallback and
re-randomizes the tree targets; see the counterexample.) -/
theorem setMode_idempotent (m : String) (pick1 pick2 : ℝ) (rs1 rs2 : ℕ → PRand)
    (s : AppState)
    (h : m = "TREE" ∨ m = "SCATTER" ∨ (m = "FOCUS" ∧ photoIndices s.particles ≠ [])) :
    updateMode m pick2 rs2 (updateMode m pick1 rs1 s) = updateMode m pick1 rs1 s :=
  updateMode_self m pick2 rs2 _ (updateMode_mode_of m pick1 rs1 s h)

theorem setMode_idempotent_witness :
    updateMode "TREE" 0 (fun _ => PRand.zero)
        (updateMode "TREE" 0 (fun _ => PRand.zero) initialState)
      = updateMode "TREE" 0 (fun _ => PRand.zero) initialState :=
  setMode_idempotent "TREE" 0 0 (fun _ => PRand.zero) (fun _ => PRand.zero)
    initialState (Or.inl rfl)

/-- A draw bundle whose tree-jitter x draw is `0.5` (a legal value of
`Math.random()` different from the zero bundle's). -/
def rHalf : PRand := { PRand.zero with j1 := 0.5 }

/-- A one-decoration state in SCATTER mode, used to exhibit the
non-idempotent FOCUS request with zero photos. -/
def cexState : AppState :=
  { initialState with particles := [default], mode := "SCATTER" }

/-- C4 counterexample: with zero PHOTO particles, two consecutive
`setMode(FOCUS)` requests are not idempotent — the second call re-runs
the TREE fallback with fresh random jitter, changing the (only)
particle's target position. -/
theorem setMode_idempotent_cex :
    (particleAt (updateMode "FOCUS" 0 (fun _ => rHalf)
        (updateMode "FOCUS" 0 (fun _ => PRand.zero) cexState)).particles 0).targetPos.x
      ≠ (particleAt
          (updateMode "FOCUS" 0 (fun _ => PRand.zero) cexState).particles 0).targetPos.x := by
  have ex1 : (particleAt
      (updateMode "FOCUS" 0 (fun _ => PRand.zero) cexState).particles 0).targetPos.x
      = Real.cos (((0 : ℕ) : ℝ) / ((1 : ℕ) : ℝ) * 50 * Real.pi)
          * (15 * (1 - ((0 : ℕ) : ℝ) / ((1 : ℕ) : ℝ))) + (PRand.zero.j1 - 0.5) := rfl
  have ex2 : (particleAt (updateMode "FOCUS" 0 (fun _ => rHalf)
        (updateMode "FOCUS" 0 (fun _ => PRand.zero) cexState)).particles 0).targetPos.x
      = Real.cos (((0 : ℕ) : ℝ) / ((1 : ℕ) : ℝ) * 50 * Real.pi)
          * (15 * (1 - ((0 : ℕ) : ℝ) / ((1 : ℕ) : ℝ))) + (rHalf.j1 - 0.5) := rfl
  rw [ex1, ex2]
  norm_num [rHalf, PRand.zero, Real.cos_zero]

/-- C7: while gesture input is disabled, a frame-processing step forces
the hand signal to not-detected and changes nothing else — in
particular it never reaches a `setMode` call (mode, particle targets
and focus subject are all untouched), for every frame and state. -/
theorem gesture_disabled_no_effect (currentTime : ℝ) (hasLandmarker : Bool)
    (result : Option (ℕ → P2)) (pick : ℝ) (rs : ℕ → PRand) (s : AppState)
    (h : s.isEnabled = false) :
    (predictWebcam currentTime hasLandmarker result pick rs s).handData.detected = false ∧
    (predictWebcam currentTime hasLandmarker result pick rs s).mode = s.mode ∧
    (predictWebcam currentTime hasLandmarker result pick rs s).particles = s.particles ∧
    (predictWebcam currentTime hasLandmarker result pick rs s).focusTarget = s.focusTarget := by
  unfold predictWebcam
  rw [if_pos h]
  exact ⟨rfl, rfl, rfl, rfl⟩

theorem gesture_disabled_no_effect_witness :
    (predictWebcam 0 true none 0 (fun _ => PRand.zero) initialState).handData.detected
        = false ∧
    (predictWebcam 0 true none 0 (fun _ => PRand.zero) initialState).mode = "TREE" ∧
    (predictWebcam 0 true none 0 (fun _ => PRand.zero) initialState).particles = [] ∧
    (predictWebcam 0 true none 0 (fun _ => PRand.zero) initialState).focusTarget = none :=
  gesture_disabled_no_effect 0 true none 0 (fun _ => PRand.zero) initialState rfl

/-- C8: in the tree layout over `N` objects, object `i`'s height is
exactly `40·(i/N) − 20`, lies in `[−20, 20]`, and is monotonically
non-decreasing in the index regardless of the random draws; the random
jitter (magnitude at most `0.5`) affects only the x and z components. -/
theorem tree_layout_height (N i : ℕ) (hN : 0 < N) (hi : i < N) (r : PRand)
    (hr : PRand.Valid r) (p : Particle) :
    (Particle.setTreeTarget i N r p).targetPos.y = 40 * ((i : ℝ) / (N : ℝ)) - 20 ∧
    (-20 ≤ (Particle.setTreeTarget i N r p).targetPos.y ∧
      (Particle.setTreeTarget i N r p).targetPos.y ≤ 20) ∧
    (∀ (j : ℕ) (r2 : PRand) (q : Particle), j < N → i ≤ j →
      (Particle.setTreeTarget i N r p).targetPos.y
        ≤ (Particle.setTreeTarget j N r2 q).targetPos.y) ∧
    |(Particle.setTreeTarget i N r p).targetPos.x
        - Real.cos ((i : ℝ) / (N : ℝ) * 50 * Real.pi)
          * (15 * (1 - (i : ℝ) / (N : ℝ)))| ≤ 0.5 ∧
    |(Particle.setTreeTarget i N r p).targetPos.z
        - Real.sin ((i : ℝ) / (N : ℝ) * 50 * Real.pi)
          * (15 * (1 - (i : ℝ) / (N : ℝ)))| ≤ 0.5 := by
  have hN2 : (0 : ℝ) < (N : ℝ) := by exact_mod_cast hN
  have ht0 : (0 : ℝ) ≤ (i : ℝ) / (N : ℝ) := by positivity
  have ht1 : (i : ℝ) / (N : ℝ) ≤ 1 := by
    rw [div_le_one hN2]
    exact_mod_cast Nat.le_of_lt hi
  obtain ⟨-, -, -, ⟨hj10, hj11⟩, ⟨hj20, hj21⟩, -⟩ := hr
  have hy : (Particle.setTreeTarget i N r p).targetPos.y
      = (i : ℝ) / (N : ℝ) * 40 - 20 := rfl
  have hx : (Particle.setTreeTarget i N r p).targetPos.x
      = Real.cos ((i : ℝ) / (N : ℝ) * 50 * Real.pi)
          * (15 * (1 - (i : ℝ) / (N : ℝ))) + (r.j1 - 0.5) := rfl
  have hz : (Particle.setTreeTarget i N r p).targetPos.z
      = Real.sin ((i : ℝ) / (N : ℝ) * 50 * Real.pi)
          * (15 * (1 - (i : ℝ) / (N : ℝ))) + (r.j2 - 0.5) := rfl
  refine ⟨by rw [hy]; ring, ⟨by rw [hy]; linarith, by rw [hy]; linarith⟩, ?_, ?_, ?_⟩
  · intro j r2 q hj hij
    have hy2 : (Particle.setTreeTarget j N r2 q).targetPos.y
        = (j : ℝ) / (N : ℝ) * 40 - 20 := rfl
    rw [hy, hy2]
    have hij2 : (i : ℝ) / (N : ℝ) ≤ (j : ℝ) / (N : ℝ) := by
      gcongr
    linarith
  · rw [hx, add_sub_cancel_left, abs_le]
    exact ⟨by linarith, by linarith⟩
  · rw [hz, add_sub_cancel_left, abs_le]
    exact ⟨by linarith, by linarith⟩

theorem tree_layout_height_witness :
    (Particle.setTreeTarget 0 2 PRand.zero default).targetPos.y = -20 := by
  have h := tree_layout_height 2 0 (by norm_num) (by norm_num) PRand.zero
    (by norm_num [PRand.Valid, PRand.zero]) default
  rw [h.1]
  norm_num

lemma scatter_norm_bounds (r : PRand) (hr : PRand.Valid r) (p : Particle) :
    8 ≤ V3.norm (Particle.setScatterTarget r p).targetPos ∧
    V3.norm (Particle.setScatterTarget r p).targetPos < 20 := by
  rw [norm_setScatterTarget r hr.1.1 p]
  have h0 := hr.1.1
  have h1 := hr.1.2
  constructor <;> nlinarith

/-- C1 (amended): a newly added photo particle is constructed with a
scatter placement as its initial target (and its mesh position copies
that target, so it appears already placed), but the layout then applied
to it is unconditionally a tree target at index
`Math.floor(random * 1500)` out of a total of `1500` — independent of
the current global mode (the state's mode, focus subject and existing
particles are untouched). -/
theorem addPhoto_scatter_then_tree (rNew : PRand) (pick : ℝ) (rTree : PRand)
    (s : AppState) :
    (addPhotoToScene rNew pick rTree s).mode = s.mode ∧
    (addPhotoToScene rNew pick rTree s).focusTarget = s.focusTarget ∧
    (addPhotoToScene rNew pick rTree s).particles
      = s.particles ++ [Particle.setTreeTarget (Nat.floor (pick * (particleCount : ℝ)))
          particleCount rTree (Particle.create ⟨1, 1, 1⟩ "PHOTO" rNew)] ∧
    (Particle.create ⟨1, 1, 1⟩ "PHOTO" rNew).pos
      = (Particle.create ⟨1, 1, 1⟩ "PHOTO" rNew).targetPos ∧
    (Particle.create ⟨1, 1, 1⟩ "PHOTO" rNew).targetPos
      = (Particle.setScatterTarget rNew (Particle.create ⟨1, 1, 1⟩ "PHOTO" rNew)).targetPos ∧
    (Particle.setTreeTarget (Nat.floor (pick * (particleCount : ℝ))) particleCount rTree
        (Particle.create ⟨1, 1, 1⟩ "PHOTO" rNew)).pos
      = (Particle.create ⟨1, 1, 1⟩ "PHOTO" rNew).pos :=
  ⟨rfl, rfl, rfl, rfl, rfl, rfl⟩

/-- An empty scene whose mode is SCATTER. -/
def cexStateScatter : AppState := { initialState with mode := "SCATTER" }

/-- A draw bundle with both tree-jitter draws at `0.5` (legal values of
`Math.random()`), which zeroes out the tree jitter. -/
def rJit : PRand := { PRand.zero with j1 := 0.5, j2 := 0.5 }

/-- C1 counterexample: in SCATTER mode, adding a photo does not apply
the scatter layout to the new object: the new object's target is the
tree-helix point `(15, -20, 0)` of norm `25`, which no scatter
placement can produce (scatter norms are below `20`, see
`scatter_norm_bounds`). -/
theorem addPhoto_scatter_then_tree_cex :
    cexStateScatter.mode = "SCATTER" ∧
    (particleAt (addPhotoToScene PRand.zero 0 rJit cexStateScatter).particles 0).targetPos
        = ⟨15, -20, 0⟩ ∧
    V3.norm ⟨15, -20, 0⟩ = 25 := by
  refine ⟨rfl, ?_, ?_⟩
  · have hp : particleAt (addPhotoToScene PRand.zero 0 rJit cexStateScatter).particles 0
        = Particle.setTreeTarget (Nat.floor ((0 : ℝ) * (particleCount : ℝ)))
            particleCount rJit (Particle.create ⟨1, 1, 1⟩ "PHOTO" PRand.zero) := rfl
    rw [hp, show Nat.floor ((0 : ℝ) * (particleCount : ℝ)) = 0 by norm_num]
    show (⟨Real.cos (((0 : ℕ) : ℝ) / ((particleCount : ℕ) : ℝ) * 50 * Real.pi)
          * (15 * (1 - ((0 : ℕ) : ℝ) / ((particleCount : ℕ) : ℝ))) + (rJit.j1 - 0.5),
        ((0 : ℕ) : ℝ) / ((particleCount : ℕ) : ℝ) * 40 - 20,
        Real.sin (((0 : ℕ) : ℝ) / ((particleCount : ℕ) : ℝ) * 50 * Real.pi)
          * (15 * (1 - ((0 : ℕ) : ℝ) / ((particleCount : ℕ) : ℝ))) + (rJit.j2 - 0.5)⟩ : V3)
      = ⟨15, -20, 0⟩
    norm_num [rJit, PRand.zero, particleCount, Real.cos_zero, Real.sin_zero]
  · have h : V3.norm ⟨15, -20, 0⟩ = Real.sqrt ((15 : ℝ) ^ 2 + (-20 : ℝ) ^ 2 + (0 : ℝ) ^ 2) := rfl
    rw [h, show ((15 : ℝ) ^ 2 + (-20 : ℝ) ^ 2 + (0 : ℝ) ^ 2) = 25 ^ 2 by norm_num,
      Real.sqrt_sq (by norm_num : (0 : ℝ) ≤ 25)]

/-- The thumb-tip-to-index-tip Euclidean distance used by the pinch
test (landmarks 4 and 8, normalized 2D space). -/
noncomputable def thumbIndexDist (lm : ℕ → P2) : ℝ :=
  Real.sqrt (((lm 4).x - (lm 8).x) ^ 2 + ((lm 4).y - (lm 8).y) ^ 2)

/-- The openness metric: mean Euclidean distance of the four non-thumb
fingertips (8, 12, 16, 20) from the wrist (0). -/
noncomputable def openness (lm : ℕ → P2) : ℝ :=
  (Real.sqrt (((lm 8).x - (lm 0).x) ^ 2 + ((lm 8).y - (lm 0).y) ^ 2)
    + Real.sqrt (((lm 12).x - (lm 0).x) ^ 2 + ((lm 12).y - (lm 0).y) ^ 2)
    + Real.sqrt (((lm 16).x - (lm 0).x) ^ 2 + ((lm 16).y - (lm 0).y) ^ 2)
    + Real.sqrt (((lm 20).x - (lm 0).x) ^ 2 + ((lm 20).y - (lm 0).y) ^ 2)) / 4

/-- The state after recording the continuous hand signal from landmark
9 (x mirrored), as done unconditionally when a hand is present. -/
noncomputable def withHand (lm : ℕ → P2) (s : AppState) : AppState :=
  { s with handData := { detected := true, centerX := 1 - (lm 9).x, centerY := (lm 9).y } }

/-- C6: for every frame with a detected hand, the classifier requests
FOCUS exactly when the thumb-index distance is strictly below `0.05`
(pinch takes priority, skipping the remaining tests); otherwise
openness below `0.25` requests TREE, openness above `0.4` requests
SCATTER, and openness in the dead zone `[0.25, 0.4]` requests nothing
— in each case after recording the hand signal. -/
theorem gesture_classification (lm : ℕ → P2) (pick : ℝ) (rs : ℕ → PRand) (s : AppState) :
    (thumbIndexDist lm < 0.05 →
      processGestures (some lm) pick rs s
        = updateMode "FOCUS" pick rs (withHand lm s)) ∧
    (0.05 ≤ thumbIndexDist lm → openness lm < 0.25 →
      processGestures (some lm) pick rs s
        = updateMode "TREE" pick rs (withHand lm s)) ∧
    (0.05 ≤ thumbIndexDist lm → 0.4 < openness lm →
      processGestures (some lm) pick rs s
        = updateMode "SCATTER" pick rs (withHand lm s)) ∧
    (0.05 ≤ thumbIndexDist lm → 0.25 ≤ openness lm → openness lm ≤ 0.4 →
      processGestures (some lm) pick rs s = withHand lm s) := by
  have e1 : processGestures (some lm) pick rs s
      = if thumbIndexDist lm < 0.05 then updateMode "FOCUS" pick rs (withHand lm s)
        else if openness lm < 0.25 then updateMode "TREE" pick rs (withHand lm s)
        else if openness lm > 0.4 then updateMode "SCATTER" pick rs (withHand lm s)
        else withHand lm s := rfl
  refine ⟨fun h => ?_, fun h1 h2 => ?_, fun h1 h2 => ?_, fun h1 h2 h3 => ?_⟩
  · rw [e1, if_pos h]
  · rw [e1, if_neg (not_lt.mpr h1), if_pos h2]
  · rw [e1, if_neg (not_lt.mpr h1), if_neg (not_lt.mpr (by linarith)), if_pos h2]
  · rw [e1, if_neg (not_lt.mpr h1), if_neg (not_lt.mpr h2), if_neg (not_lt.mpr h3)]

/-- A hand frame with thumb tip at distance `0.04` from the index tip
(all other landmarks at the origin). -/
def lmPinch : ℕ → P2 := fun i => if i = 4 then ⟨0.04, 0⟩ else ⟨0, 0⟩

/-- A fist-like frame: fingertips at distance `0.2` from the wrist,
thumb far from the index tip. -/
def lmFist : ℕ → P2 := fun i =>
  if i = 0 then ⟨0, 0⟩ else if i = 4 then ⟨0.5, 0⟩ else ⟨0.2, 0⟩

/-- An open-hand frame: fingertips at distance `0.45` from the wrist. -/
def lmOpen : ℕ → P2 := fun i =>
  if i = 0 then ⟨0, 0⟩ else if i = 4 then ⟨1, 0⟩ else ⟨0.45, 0⟩

/-- A dead-zone frame: fingertips at distance `0.3` from the wrist. -/
def lmDead : ℕ → P2 := fun i =>
  if i = 0 then ⟨0, 0⟩ else if i = 4 then ⟨1, 0⟩ else ⟨0.3, 0⟩

lemma sqrt_sq_sub_zero (a : ℝ) (ha : 0 ≤ a) :
    Real.sqrt ((a - 0) ^ 2 + ((0 : ℝ) - 0) ^ 2) = a := by
  rw [show ((a - 0) ^ 2 + ((0 : ℝ) - 0) ^ 2) = a ^ 2 by ring, Real.sqrt_sq ha]

theorem gesture_classification_witness :
    processGestures (some lmPinch) 0 (fun _ => PRand.zero) initialState
        = updateMode "FOCUS" 0 (fun _ => PRand.zero) (withHand lmPinch initialState) ∧
    processGestures (some lmFist) 0 (fun _ => PRand.zero) initialState
        = updateMode "TREE" 0 (fun _ => PRand.zero) (withHand lmFist initialState) ∧
    processGestures (some lmOpen) 0 (fun _ => PRand.zero) initialState
        = updateMode "SCATTER" 0 (fun _ => PRand.zero) (withHand lmOpen initialState) ∧
    processGestures (some lmDead) 0 (fun _ => PRand.zero) initialState
        = withHand lmDead initialState := by
  have hdPinch : thumbIndexDist lmPinch = 0.04 := by
    have e : thumbIndexDist lmPinch
        = Real.sqrt (((0.04 : ℝ) - 0) ^ 2 + ((0 : ℝ) - 0) ^ 2) := rfl
    rw [e, sqrt_sq_sub_zero 0.04 (by norm_num)]
  have hdFist : thumbIndexDist lmFist = 0.3 := by
    have e : thumbIndexDist lmFist
        = Real.sqrt (((0.5 : ℝ) - 0.2) ^ 2 + ((0 : ℝ) - 0) ^ 2) := rfl
    rw [e, show (((0.5 : ℝ) - 0.2) ^ 2 + ((0 : ℝ) - 0) ^ 2) = 0.3 ^ 2 by norm_num,
      Real.sqrt_sq (by norm_num : (0 : ℝ) ≤ 0.3)]
  have hdOpen : thumbIndexDist lmOpen = 0.55 := by
    have e : thumbIndexDist lmOpen
        = Real.sqrt (((1 : ℝ) - 0.45) ^ 2 + ((0 : ℝ) - 0) ^ 2) := rfl
    rw [e, show (((1 : ℝ) - 0.45) ^ 2 + ((0 : ℝ) - 0) ^ 2) = 0.55 ^ 2 by norm_num,
      Real.sqrt_sq (by norm_num : (0 : ℝ) ≤ 0.55)]
  have hdDead : thumbIndexDist lmDead = 0.7 := by
    have e : thumbIndexDist lmDead
        = Real.sqrt (((1 : ℝ) - 0.3) ^ 2 + ((0 : ℝ) - 0) ^ 2) := rfl
    rw [e, show (((1 : ℝ) - 0.3) ^ 2 + ((0 : ℝ) - 0) ^ 2) = 0.7 ^ 2 by norm_num,
      Real.sqrt_sq (by norm_num : (0 : ℝ) ≤ 0.7)]
  have hoFist : openness lmFist = 0.2 := by
    have e : openness lmFist
        = (Real.sqrt (((0.2 : ℝ) - 0) ^ 2 + ((0 : ℝ) - 0) ^ 2)
            + Real.sqrt (((0.2 : ℝ) - 0) ^ 2 + ((0 : ℝ) - 0) ^ 2)
            + Real.sqrt (((0.2 : ℝ) - 0) ^ 2 + ((0 : ℝ) - 0) ^ 2)
            + Real.sqrt (((0.2 : ℝ) - 0) ^ 2 + ((0 : ℝ) - 0) ^ 2)) / 4 := rfl
    rw [e, sqrt_sq_sub_zero 0.2 (by norm_num)]
    norm_num
  have hoOpen : openness lmOpen = 0.45 := by
    have e : openness lmOpen
        = (Real.sqrt (((0.45 : ℝ) - 0) ^ 2 + ((0 : ℝ) - 0) ^ 2)
            + Real.sqrt (((0.45 : ℝ) - 0) ^ 2 + ((0 : ℝ) - 0) ^ 2)
            + Real.sqrt (((0.45 : ℝ) - 0) ^ 2 + ((0 : ℝ) - 0) ^ 2)
            + Real.sqrt (((0.45 : ℝ) - 0) ^ 2 + ((0 : ℝ) - 0) ^ 2)) / 4 := rfl
    rw [e, sqrt_sq_sub_zero 0.45 (by norm_num)]
    norm_num
  have hoDead : openness lmDead = 0.3 := by
    have e : openness lmDead
        = (Real.sqrt (((0.3 : ℝ) - 0) ^ 2 + ((0 : ℝ) - 0) ^ 2)
            + Real.sqrt (((0.3 : ℝ) - 0) ^ 2 + ((0 : ℝ) - 0) ^ 2)
            + Real.sqrt (((0.3 : ℝ) - 0) ^ 2 + ((0 : ℝ) - 0) ^ 2)
            + Real.sqrt (((0.3 : ℝ) - 0) ^ 2 + ((0 : ℝ) - 0) ^ 2)) / 4 := rfl
    rw [e, sqrt_sq_sub_zero 0.3 (by norm_num)]
    norm_num
  refine ⟨(gesture_classification lmPinch 0 (fun _ => PRand.zero) initialState).1
      (by rw [hdPinch]; norm_num),
    (gesture_classification lmFist 0 (fun _ => PRand.zero) initialState).2.1
      (by rw [hdFist]; norm_num) (by rw [hoFist]; norm_num),
    (gesture_classification lmOpen 0 (fun _ => PRand.zero) initialState).2.2.1
      (by rw [hdOpen]; norm_num) (by rw [hoOpen]; norm_num),
    (gesture_classification lmDead 0 (fun _ => PRand.zero) initialState).2.2.2
      (by rw [hdDead]; norm_num) (by rw [hoDead]; norm_num) (by rw [hoDead]; norm_num)⟩

lemma photoIndices_append_photo (ps : List Particle) (p : Particle)
    (hp : p.type = "PHOTO") :
    photoIndices (ps ++ [p]) = photoIndices ps ++ [ps.length] := by
  unfold photoIndices
  rw [show (ps ++ [p]).length = ps.length + 1 by simp, List.range_succ,
    List.filter_append]
  congr 1
  · apply List.filter_congr
    intro i hi
    rw [List.mem_range] at hi
    unfold isPhotoAt
    rw [List.getElem?_append_left hi]
  · have h : isPhotoAt (ps ++ [p]) ps.length = true := by
      unfold isPhotoAt
      rw [List.getElem?_concat_length]
      simpa using hp
    simp [h]

lemma getD_last_append (L : List ℕ) (n : ℕ) :
    (L ++ [n]).getD ((L ++ [n]).length - 1) 0 = n := by
  have h1 : (L ++ [n]).length - 1 = L.length := by simp
  rw [h1, List.getD_eq_getElem?_getD, List.getElem?_concat_length]
  rfl

lemma mapWithIdx_focus_subject (rs2 : ℕ → PRand) (ps : List Particle) (fi : ℕ)
    (hfi : fi < ps.length) :
    particleAt (mapWithIdx (fun i p => Particle.setFocusTarget (i == fi) (rs2 i) p) 0 ps) fi
      = Particle.setFocusTarget true (rs2 fi) (particleAt ps fi) := by
  rw [particleAt_mapWithIdx _ _ _ hfi, beq_self_eq_true]

lemma mapWithIdx_focus_other (rs2 : ℕ → PRand) (ps : List Particle) (fi i : ℕ)
    (hi : i < ps.length) (hne : i ≠ fi) :
    particleAt (mapWithIdx (fun i p => Particle.setFocusTarget (i == fi) (rs2 i) p) 0 ps) i
      = Particle.setFocusTarget false (rs2 i) (particleAt ps i) := by
  rw [particleAt_mapWithIdx _ _ _ hi, beq_eq_false_iff_ne.mpr hne]

lemma setFocusTarget_subject (r : PRand) (p : Particle) :
    (Particle.setFocusTarget true r p).targetPos = ⟨0, 2, 40⟩ ∧
    (Particle.setFocusTarget true r p).targetRot = ⟨0, 0, 0⟩ ∧
    (Particle.setFocusTarget true r p).targetScale = ⟨3, 3, 3⟩ :=
  ⟨rfl, rfl, rfl⟩

lemma focus_other_norm (r : PRand) (hr : PRand.Valid r) (p : Particle) :
    16 ≤ V3.norm (Particle.setFocusTarget false r p).targetPos ∧
    V3.norm (Particle.setFocusTarget false r p).targetPos ≤ 40 := by
  rw [norm_setFocusTarget_false r hr.1.1 p]
  have h0 := hr.1.1
  have h1 := hr.1.2
  constructor <;> nlinarith

/-- C9: after adding one photo through the upload flow (which enters
FOCUS), the newly added photo — the last PHOTO, at index equal to the
previous collection size — is the focus subject with target position
`(0, 2, 40)`, neutral target rotation and target scale `(3, 3, 3)`,
while every other particle's target position is a fresh scatter
placement doubled, of norm within `[16, 40]`. -/
theorem focus_after_add (rNew : PRand) (pickIdx : ℝ) (rTree : PRand) (pickFocus : ℝ)
    (rs1 rs2 : ℕ → PRand) (s : AppState) (hrs2 : ∀ i, (rs2 i).Valid) :
    (onPhotoLoaded rNew pickIdx rTree pickFocus rs1 rs2 s).mode = "FOCUS" ∧
    (onPhotoLoaded rNew pickIdx rTree pickFocus rs1 rs2 s).focusTarget
        = some s.particles.length ∧
    (particleAt (onPhotoLoaded rNew pickIdx rTree pickFocus rs1 rs2 s).particles
        s.particles.length).targetPos = ⟨0, 2, 40⟩ ∧
    (particleAt (onPhotoLoaded rNew pickIdx rTree pickFocus rs1 rs2 s).particles
        s.particles.length).targetRot = ⟨0, 0, 0⟩ ∧
    (particleAt (onPhotoLoaded rNew pickIdx rTree pickFocus rs1 rs2 s).particles
        s.particles.length).targetScale = ⟨3, 3, 3⟩ ∧
    ∀ i, i < (onPhotoLoaded rNew pickIdx rTree pickFocus rs1 rs2 s).particles.length →
      i ≠ s.particles.length →
      16 ≤ V3.norm (particleAt
          (onPhotoLoaded rNew pickIdx rTree pickFocus rs1 rs2 s).particles i).targetPos ∧
      V3.norm (particleAt
          (onPhotoLoaded rNew pickIdx rTree pickFocus rs1 rs2 s).particles i).targetPos
        ≤ 40 := by
  have hps1 : (addPhotoToScene rNew pickIdx rTree s).particles
      = s.particles ++ [Particle.setTreeTarget (Nat.floor (pickIdx * (particleCount : ℝ)))
          particleCount rTree (Particle.create ⟨1, 1, 1⟩ "PHOTO" rNew)] := rfl
  have hph1 : photoIndices (addPhotoToScene rNew pickIdx rTree s).particles
      = photoIndices s.particles ++ [s.particles.length] := by
    rw [hps1]
    exact photoIndices_append_photo _ _ rfl
  have hlen1 : (addPhotoToScene rNew pickIdx rTree s).particles.length
      = s.particles.length + 1 := by
    rw [hps1]
    simp
  have hphne : photoIndices (addPhotoToScene rNew pickIdx rTree s).particles ≠ [] := by
    rw [hph1]
    simp
  have hm2 : (updateMode "FOCUS" pickFocus rs1
        (addPhotoToScene rNew pickIdx rTree s)).mode = "FOCUS" ∧
      photoIndices (updateMode "FOCUS" pickFocus rs1
          (addPhotoToScene rNew pickIdx rTree s)).particles
        = photoIndices (addPhotoToScene rNew pickIdx rTree s).particles ∧
      (updateMode "FOCUS" pickFocus rs1
          (addPhotoToScene rNew pickIdx rTree s)).particles.length
        = (addPhotoToScene rNew pickIdx rTree s).particles.length := by
    by_cases h : (addPhotoToScene rNew pickIdx rTree s).mode = "FOCUS"
    · rw [updateMode_self _ _ _ _ h]
      exact ⟨h, rfl, rfl⟩
    · rw [updateMode_focus_photos pickFocus rs1 _ h hphne]
      exact ⟨rfl,
        photoIndices_mapWithIdx _ (fun i p => type_setFocusTarget _ _ p) _,
        length_mapWithIdx _ _ _⟩
  obtain ⟨hm2a, hm2b, hm2c⟩ := hm2
  have hfi : (photoIndices (updateMode "FOCUS" pickFocus rs1
        (addPhotoToScene rNew pickIdx rTree s)).particles).getD
      ((photoIndices (updateMode "FOCUS" pickFocus rs1
          (addPhotoToScene rNew pickIdx rTree s)).particles).length - 1) 0
      = s.particles.length := by
    rw [hm2b, hph1]
    exact getD_last_append _ _
  have hpart0 : (onPhotoLoaded rNew pickIdx rTree pickFocus rs1 rs2 s).particles
      = mapWithIdx (fun i p => Particle.setFocusTarget
          (i == (photoIndices (updateMode "FOCUS" pickFocus rs1
              (addPhotoToScene rNew pickIdx rTree s)).particles).getD
            ((photoIndices (updateMode "FOCUS" pickFocus rs1
                (addPhotoToScene rNew pickIdx rTree s)).particles).length - 1) 0)
          (rs2 i) p) 0
        (updateMode "FOCUS" pickFocus rs1 (addPhotoToScene rNew pickIdx rTree s)).particles :=
    rfl
  have hpart : (onPhotoLoaded rNew pickIdx rTree pickFocus rs1 rs2 s).particles
      = mapWithIdx (fun i p => Particle.setFocusTarget (i == s.particles.length) (rs2 i) p) 0
        (updateMode "FOCUS" pickFocus rs1 (addPhotoToScene rNew pickIdx rTree s)).particles := by
    rw [hpart0, hfi]
  have hfoc0 : (onPhotoLoaded rNew pickIdx rTree pickFocus rs1 rs2 s).focusTarget
      = some ((photoIndices (updateMode "FOCUS" pickFocus rs1
            (addPhotoToScene rNew pickIdx rTree s)).particles).getD
          ((photoIndices (updateMode "FOCUS" pickFocus rs1
              (addPhotoToScene rNew pickIdx rTree s)).particles).length - 1) 0) := rfl
  have hmode0 : (onPhotoLoaded rNew pickIdx rTree pickFocus rs1 rs2 s).mode
      = (updateMode "FOCUS" pickFocus rs1 (addPhotoToScene rNew pickIdx rTree s)).mode := rfl
  have hsublen : s.particles.length < (updateMode "FOCUS" pickFocus rs1
      (addPhotoToScene rNew pickIdx rTree s)).particles.length := by
    rw [hm2c, hlen1]
    omega
  have hsub := mapWithIdx_focus_subject rs2
    (updateMode "FOCUS" pickFocus rs1 (addPhotoToScene rNew pickIdx rTree s)).particles
    s.particles.length hsublen
  refine ⟨hmode0.trans hm2a, by rw [hfoc0, hfi], ?_, ?_, ?_, ?_⟩
  · rw [hpart, hsub]
    exact (setFocusTarget_subject _ _).1
  · rw [hpart, hsub]
    exact (setFocusTarget_subject _ _).2.1
  · rw [hpart, hsub]
    exact (setFocusTarget_subject _ _).2.2
  · intro i hi hne
    have hi2 : i < (updateMode "FOCUS" pickFocus rs1
        (addPhotoToScene rNew pickIdx rTree s)).particles.length := by
      rw [hpart, length_mapWithIdx] at hi
      exact hi
    rw [hpart, mapWithIdx_focus_other rs2 _ s.particles.length i hi2 hne]
    exact focus_other_norm (rs2 i) (hrs2 i) _

theorem focus_after_add_witness :
    (onPhotoLoaded PRand.zero 0 PRand.zero 0 (fun _ => PRand.zero) (fun _ => PRand.zero)
        initialState).mode = "FOCUS" ∧
    (onPhotoLoaded PRand.zero 0 PRand.zero 0 (fun _ => PRand.zero) (fun _ => PRand.zero)
        initialState).focusTarget = some 0 ∧
    (particleAt (onPhotoLoaded PRand.zero 0 PRand.zero 0 (fun _ => PRand.zero)
        (fun _ => PRand.zero) initialState).particles 0).targetPos = ⟨0, 2, 40⟩ := by
  have h := focus_after_add PRand.zero 0 PRand.zero 0 (fun _ => PRand.zero)
    (fun _ => PRand.zero) initialState
    (fun _ => by norm_num [PRand.Valid, PRand.zero])
  exact ⟨h.1, h.2.1, h.2.2.1⟩

/-- The reachability invariant backing the photo-free fallback claim:
whenever no PHOTO particle exists, the stored mode is not FOCUS and no
focus subject is set.  It holds at startup and is preserved by every
mutation entry point of the core, so the hypotheses of
`focus_fallback_no_photos` hold in every reachable photo-free state. -/
def PhotoFreeInv (s : AppState) : Prop :=
  photoIndices s.particles = [] → (s.mode ≠ "FOCUS" ∧ s.focusTarget = none)

lemma photoFreeInv_initial : PhotoFreeInv initialState :=
  fun _ => ⟨by decide, rfl⟩

lemma photoFreeInv_updateMode (m : String) (pick : ℝ) (rs : ℕ → PRand) (s : AppState)
    (h : PhotoFreeInv s) : PhotoFreeInv (updateMode m pick rs s) := by
  unfold PhotoFreeInv at h ⊢
  by_cases hs : s.mode = m
  · rw [updateMode_self m pick rs s hs]
    exact h
  by_cases hT : m = "TREE"
  · subst hT
    have e : updateMode "TREE" pick rs s
        = { s with mode := "TREE",
                   particles := mapWithIdx
                     (fun i p => Particle.setTreeTarget i s.particles.length (rs i) p)
                     0 s.particles } := by
      unfold updateMode
      rw [if_neg hs, if_pos rfl]
    rw [e]
    intro hph
    have hph2 : photoIndices (mapWithIdx
        (fun i p => Particle.setTreeTarget i s.particles.length (rs i) p)
        0 s.particles) = [] := hph
    rw [photoIndices_mapWithIdx _ (fun i p => type_setTreeTarget _ _ _ _) _] at hph2
    exact ⟨by show ("TREE" : String) ≠ "FOCUS"; decide, (h hph2).2⟩
  by_cases hS : m = "SCATTER"
  · subst hS
    have e : updateMode "SCATTER" pick rs s
        = { s with mode := "SCATTER",
                   particles := mapWithIdx
                     (fun i p => Particle.setScatterTarget (rs i) p) 0 s.particles } := by
      unfold updateMode
      rw [if_neg hs, if_neg hT, if_pos rfl]
    rw [e]
    intro hph
    have hph2 : photoIndices (mapWithIdx
        (fun i p => Particle.setScatterTarget (rs i) p) 0 s.particles) = [] := hph
    rw [photoIndices_mapWithIdx _ (fun i p => type_setScatterTarget _ _) _] at hph2
    exact ⟨by show ("SCATTER" : String) ≠ "FOCUS"; decide, (h hph2).2⟩
  by_cases hF : m = "FOCUS"
  · subst hF
    by_cases hph : photoIndices s.particles = []
    · rw [updateMode_focus_noPhotos pick rs s hs hph]
      intro hph2
      exact ⟨by show ("TREE" : String) ≠ "FOCUS"; decide, (h hph).2⟩
    · rw [updateMode_focus_photos pick rs s hs hph]
      intro hph2
      have hph3 : photoIndices (mapWithIdx
          (fun i p => Particle.setFocusTarget
            (i == (photoIndices s.particles).getD
              (Nat.floor (pick * ((photoIndices s.particles).length : ℝ))) 0)
            (rs i) p) 0 s.particles) = [] := hph2
      rw [photoIndices_mapWithIdx _ (fun i p => type_setFocusTarget _ _ p) _] at hph3
      exact absurd hph3 hph
  · have e : updateMode m pick rs s = { s with mode := m } := by
      unfold updateMode
      rw [if_neg hs, if_neg hT, if_neg hS, if_neg hF]
    rw [e]
    intro hph
    exact ⟨hF, (h hph).2⟩

lemma photoFreeInv_addPhotoToScene (rNew : PRand) (pick : ℝ) (rTree : PRand)
    (s : AppState) : PhotoFreeInv (addPhotoToScene rNew pick rTree s) := by
  intro hph
  exfalso
  have e : (addPhotoToScene rNew pick rTree s).particles
      = s.particles ++ [Particle.setTreeTarget (Nat.floor (pick * (particleCount : ℝ)))
          particleCount rTree (Particle.create ⟨1, 1, 1⟩ "PHOTO" rNew)] := rfl
  rw [e, photoIndices_append_photo _ _ rfl] at hph
  simp at hph

lemma photoFreeInv_withHand (lm : ℕ → P2) (s : AppState) (h : PhotoFreeInv s) :
    PhotoFreeInv (withHand lm s) := h

lemma photoFreeInv_processGestures (result : Option (ℕ → P2)) (pick : ℝ)
    (rs : ℕ → PRand) (s : AppState) (h : PhotoFreeInv s) :
    PhotoFreeInv (processGestures result pick rs s) := by
  cases result with
  | none => exact h
  | some lm =>
    have e1 : processGestures (some lm) pick rs s
        = if thumbIndexDist lm < 0.05 then updateMode "FOCUS" pick rs (withHand lm s)
          else if openness lm < 0.25 then updateMode "TREE" pick rs (withHand lm s)
          else if openness lm > 0.4 then updateMode "SCATTER" pick rs (withHand lm s)
          else withHand lm s := rfl
    rw [e1]
    split
    · exact photoFreeInv_updateMode _ _ _ _ (photoFreeInv_withHand lm s h)
    split
    · exact photoFreeInv_updateMode _ _ _ _ (photoFreeInv_withHand lm s h)
    split
    · exact photoFreeInv_updateMode _ _ _ _ (photoFreeInv_withHand lm s h)
    · exact photoFreeInv_withHand lm s h

lemma photoFreeInv_predictWebcam (currentTime : ℝ) (hasLandmarker : Bool)
    (result : Option (ℕ → P2)) (pick : ℝ) (rs : ℕ → PRand) (s : AppState)
    (h : PhotoFreeInv s) :
    PhotoFreeInv (predictWebcam currentTime hasLandmarker result pick rs s) := by
  unfold predictWebcam
  split
  · exact h
  split
  · split
    · exact photoFreeInv_processGestures _ _ _ _ h
    · exact h
  · exact h

lemma photoFreeInv_onPhotoLoaded (rNew : PRand) (pickIdx : ℝ) (rTree : PRand)
    (pickFocus : ℝ) (rs1 rs2 : ℕ → PRand) (s : AppState) :
    PhotoFreeInv (onPhotoLoaded rNew pickIdx rTree pickFocus rs1 rs2 s) := by
  intro hph
  exfalso
  have hpart0 : (onPhotoLoaded rNew pickIdx rTree pickFocus rs1 rs2 s).particles
      = mapWithIdx (fun i p => Particle.setFocusTarget
          (i == (photoIndices (updateMode "FOCUS" pickFocus rs1
              (addPhotoToScene rNew pickIdx rTree s)).particles).getD
            ((photoIndices (updateMode "FOCUS" pickFocus rs1
                (addPhotoToScene rNew pickIdx rTree s)).particles).length - 1) 0)
          (rs2 i) p) 0
        (updateMode "FOCUS" pickFocus rs1 (addPhotoToScene rNew pickIdx rTree s)).particles :=
    rfl
  rw [hpart0, photoIndices_mapWithIdx _ (fun i p => type_setFocusTarget _ _ p) _] at hph
  have hph1 : photoIndices (addPhotoToScene rNew pickIdx rTree s).particles
      = photoIndices s.particles ++ [s.particles.length] := by
    have e : (addPhotoToScene rNew pickIdx rTree s).particles
        = s.particles ++ [Particle.setTreeTarget (Nat.floor (pickIdx * (particleCount : ℝ)))
            particleCount rTree (Particle.create ⟨1, 1, 1⟩ "PHOTO" rNew)] := rfl
    rw [e]
    exact photoIndices_append_photo _ _ rfl
  have hphne : photoIndices (addPhotoToScene rNew pickIdx rTree s).particles ≠ [] := by
    rw [hph1]
    simp
  by_cases hc : (addPhotoToScene rNew pickIdx rTree s).mode = "FOCUS"
  · rw [updateMode_self _ _ _ _ hc] at hph
    exact absurd hph hphne
  · rw [updateMode_focus_photos pickFocus rs1 _ hc hphne] at hph
    have hph2 : photoIndices (mapWithIdx (fun i p => Particle.setFocusTarget
        (i == (photoIndices (addPhotoToScene rNew pickIdx rTree s).particles).getD
          (Nat.floor (pickFocus *
            ((photoIndices (addPhotoToScene rNew pickIdx rTree s).particles).length : ℝ))) 0)
        (rs1 i) p) 0 (addPhotoToScene rNew pickIdx rTree s).particles) = [] := hph
    rw [photoIndices_mapWithIdx _ (fun i p => type_setFocusTarget _ _ p) _] at hph2
    exact absurd hph2 hphne
